import Mathlib

/-!
Verification of the libjitter jitter buffer (src/JitterBuffer.cpp) against its
natural-language specification.

Shallow embedding notes:
* All C++ `std::size_t` values are modelled as `Nat`.  Every subtraction the
  source performs on a `size_t` is guarded in the source by a check or an
  assertion that the subtrahend does not exceed the minuend (or, for
  `max_size_bytes - written`, by the intent that `written ≤ max_size_bytes`);
  we use truncated `Nat` subtraction at those sites and add the corresponding
  bound as an explicit hypothesis wherever a theorem depends on it.
* `std::chrono::milliseconds` counts are modelled as `Int`.
* The ring buffer (double-mapped virtual memory, so a copy at offset `o` of
  `n` bytes touches physical bytes `(o+i) % L`) is modelled by two parallel
  stores: `data : Nat → Nat` for payload bytes and `headers : Nat → Header`
  for the `Header` records the source writes with `memcpy` and reads back with
  `reinterpret_cast` at the same offsets.  The byte image of a header is never
  inspected byte-wise by the source, so a record store at the header's offset
  is an exact model as long as header reads happen at offsets where a header
  was written — which holds on every trace appearing below.
* `Header.in_use` is `std::atomic_flag`; sequentially, `test_and_set` reads
  the current value and sets the flag, `clear` resets it: modelled as `Bool`.
  Where the source calls `test_and_set` on a *local copy* of a header
  (`Dequeue`), the effect is local, exactly as in the source.
* Wall-clock time (`system_clock::now`) is passed in as an explicit `now_ms`
  argument to each operation that reads the clock.
* The concealment callback writes bytes into the ring through the packet
  descriptors it is given; it is modelled as a function from the descriptor
  list (sequence number, ring offset of the payload region, byte length) to
  the list of byte lists it writes, which the engine then stores.
* `sizeof(Header)` (`METADATA_SIZE`) is 40: LP64 layout of
  `{u32; pad4; size_t; u64; bool; atomic_flag; pad6; size_t}`.
* The Linux (`_GNU_SOURCE`) branch of `MakeVirtualMemory` is modelled:
  `length = length + page_size - (length % page_size)` with a 4096-byte page.
-/

/-- Byte size of the on-ring header: `sizeof(Header)` on an LP64 platform. -/
def METADATA_SIZE : Nat := 40

/-- Page size returned by `getpagesize()` on the modelled Linux platform. -/
def PAGE_SIZE : Nat := 4096

/-- Modulus of `std::uint32_t`, that is `2^32`. -/
def UINT32_MOD : Nat := 4294967296

/-- On-ring packet header (JitterBuffer.hh `struct Header`). -/
structure Header where
  sequence_number : Nat
  elements : Nat
  timestamp : Nat
  concealment : Bool
  in_use : Bool
  previous_elements : Nat
deriving DecidableEq

/-- The all-zero header: the ring is `memset` to 0 at construction. -/
def Header.zero : Header :=
  { sequence_number := 0, elements := 0, timestamp := 0,
    concealment := false, in_use := false, previous_elements := 0 }

/-- Input/output packet record (include/Packet.h), with `data` as a byte list. -/
structure Packet where
  sequence_number : Nat
  data : List Nat
  length : Nat
  elements : Nat

/-- Metrics counters (include/Metrics.h, with the field names JitterBuffer.cpp
uses). -/
structure Metrics where
  concealed_frames : Nat
  skipped_frames : Nat
  filled_packets : Nat
  updated_frames : Nat
  update_missed_frames : Nat
deriving DecidableEq

def Metrics.zero : Metrics :=
  { concealed_frames := 0, skipped_frames := 0, filled_packets := 0,
    updated_frames := 0, update_missed_frames := 0 }

/-- The jitter buffer state (the data members of class `JitterBuffer`). -/
structure JitterBuffer where
  element_size : Nat
  packet_elements : Nat
  clock_rate : Nat
  min_length : Int
  max_length : Int
  max_size_bytes : Nat
  data : Nat → Nat
  headers : Nat → Header
  read_offset : Nat
  write_offset : Nat
  written : Nat
  written_elements : Nat
  last_written_sequence_number : Option Nat
  play : Bool
  latest_written_elements : Nat
  dont_walk_beyond : Nat
  metrics : Metrics
  skipped_frames : Nat

/-- Model of `memcpy(buffer + offset, src, src.length)` on the double-mapped ring:
byte `i` of `src` lands at physical offset `(offset + i) % L`.  Later bytes
overwrite earlier ones at the same physical offset, as `memcpy` does. -/
def writeBytes (f : Nat → Nat) (offset L : Nat) : List Nat → (Nat → Nat)
  | [] => f
  | b :: rest =>
      writeBytes (fun x => if x = offset % L then b else f x) ((offset + 1) % L) L rest

/-- Model of `memcpy(dst, buffer + offset, n)` on the double-mapped ring. -/
def readBytes (f : Nat → Nat) (offset n L : Nat) : List Nat :=
  (List.range n).map fun i => f ((offset + i) % L)

/-- Store a header record at a physical ring offset. -/
def setHeader (s : JitterBuffer) (offset : Nat) (h : Header) : JitterBuffer :=
  { s with headers := fun x => if x = offset then h else s.headers x }

namespace JitterBuffer

/-- Source `JitterBuffer::ForwardRead` (lines 452-458): `written -= n`,
`read_offset = (read_offset + n) % L`.  The source asserts `n ≤ written`. -/
def forwardRead (s : JitterBuffer) (forward_bytes : Nat) : JitterBuffer :=
  { s with written := s.written - forward_bytes,
           read_offset := (s.read_offset + forward_bytes) % s.max_size_bytes }

/-- Source `JitterBuffer::UnwindRead` (lines 445-450): `written += n`,
`read_offset = ((read_offset - n) + n*L) % L`.  The source computes the offset
in wrapping unsigned arithmetic; since `n ≤ n*L + read_offset` (the ring is
nonempty), the reassociated `Nat` form below is the same value. -/
def unwindRead (s : JitterBuffer) (unwind_bytes : Nat) : JitterBuffer :=
  { s with written := s.written + unwind_bytes,
           read_offset :=
             ((s.read_offset + unwind_bytes * s.max_size_bytes) - unwind_bytes)
               % s.max_size_bytes }

/-- Source `JitterBuffer::ForwardWrite` (lines 468-473). -/
def forwardWrite (s : JitterBuffer) (forward_bytes : Nat) : JitterBuffer :=
  { s with written := s.written + forward_bytes,
           write_offset := (s.write_offset + forward_bytes) % s.max_size_bytes }

/-- Source `JitterBuffer::UnwindWrite` (lines 460-466); same offset arithmetic remark
as `unwindRead`.  The source asserts `n ≤ written`. -/
def unwindWrite (s : JitterBuffer) (unwind_bytes : Nat) : JitterBuffer :=
  { s with written := s.written - unwind_bytes,
           write_offset :=
             ((s.write_offset + unwind_bytes * s.max_size_bytes) - unwind_bytes)
               % s.max_size_bytes }

/-- The state built by the constructor after its two argument checks pass
(JitterBuffer.cpp lines 18-64).  `max_size_bytes` comes from
`MakeVirtualMemory` on the `_GNU_SOURCE` branch (lines 491-494):
`buffer_size = max_length.count() * (clock_rate / 1000) * (element_size +
METADATA_SIZE)` rounded by `length + page_size - (length % page_size)`.
The ring is zeroed; `play` and `dont_walk_beyond` are members the source
constructor never assigns, modelled with their zero-initialized values
false and 0. -/
def freshState (element_size packet_elements clock_rate : Nat)
    (max_length min_length : Int) : JitterBuffer :=
  let buffer_size :=
    max_length.toNat * (clock_rate / 1000) * (element_size + METADATA_SIZE)
  { element_size := element_size
    packet_elements := packet_elements
    clock_rate := clock_rate
    min_length := min_length
    max_length := max_length
    max_size_bytes := buffer_size + PAGE_SIZE - buffer_size % PAGE_SIZE
    data := fun _ => 0
    headers := fun _ => Header.zero
    read_offset := 0
    write_offset := 0
    written := 0
    written_elements := 0
    last_written_sequence_number := none
    play := false
    latest_written_elements := 0
    dont_walk_beyond := 0
    metrics := Metrics.zero
    skipped_frames := 0 }

/-- Source `JitterBuffer::JitterBuffer` (lines 18-64): rejects `max_length ≤ 0`
("Max length must be >0") and a per-packet duration below 1 ms
("Packets should be at least 1ms."); both checks precede the buffer
allocation, so an error returns no state at all. -/
def new (element_size packet_elements clock_rate : Nat)
    (max_length min_length : Int) : Except String JitterBuffer :=
  if max_length ≤ 0 then .error "Max length must be >0"
  else if packet_elements * 1000 / clock_rate < 1 then
    .error "Packets should be at least 1ms."
  else .ok (freshState element_size packet_elements clock_rate max_length min_length)

/-- Source `JitterBuffer::GetCurrentDepth` (lines 475-478):
`written_elements * 1000 / clock_rate` milliseconds.  The source routes the
integer quotient through a `float`; the round trip is exact for the value
ranges of interest. -/
def getCurrentDepth (s : JitterBuffer) : Int :=
  ((s.written_elements * 1000 / s.clock_rate : Nat) : Int)

/-- Source `JitterBuffer::CopyIntoBuffer(src, length, manual_increment,
offset_offset_bytes)` (lines 395-411), for a payload byte source.
All-or-nothing: if `length > max_size_bytes - written` it returns 0 and
changes nothing; otherwise it copies `length` bytes starting at
`(write_offset + offset_offset_bytes) % L` and, unless `manual_increment`,
forwards the write cursor. -/
def copyIntoBuffer (s : JitterBuffer) (src : List Nat) (length : Nat)
    (manual_increment : Bool) (offset_offset_bytes : Nat) : Nat × JitterBuffer :=
  let space := s.max_size_bytes - s.written
  if length > space then (0, s)
  else
    let offset := (s.write_offset + offset_offset_bytes) % s.max_size_bytes
    let s := { s with data := writeBytes s.data offset s.max_size_bytes (src.take length) }
    let s := if manual_increment then s else s.forwardWrite length
    (length, s)

/-- The same routine (lines 395-411) invoked with a `Header` as source
(`CopyIntoBuffer(reinterpret_cast<std::uint8_t *>(&header), METADATA_SIZE,
...)`, line 282): identical guard and cursor handling, with the
`METADATA_SIZE` bytes of the header stored as a record at the target offset. -/
def copyHeaderIntoBuffer (s : JitterBuffer) (h : Header)
    (manual_increment : Bool) (offset_offset_bytes : Nat) : Nat × JitterBuffer :=
  let space := s.max_size_bytes - s.written
  if METADATA_SIZE > space then (0, s)
  else
    let offset := (s.write_offset + offset_offset_bytes) % s.max_size_bytes
    let s := setHeader s offset h
    let s := if manual_increment then s else s.forwardWrite METADATA_SIZE
    (METADATA_SIZE, s)

/-- Source `JitterBuffer::CopyIntoBuffer(const Packet&)` (lines 365-393).
Returns the number of whole elements accepted; writes the header at the
entry `write_offset`, the payload at `write_offset + METADATA_SIZE`, then
commits with `ForwardWrite` and bumps `written_elements`. -/
def copyIntoBufferPacket (s : JitterBuffer) (packet : Packet) (now_ms : Nat) :
    Nat × JitterBuffer :=
  let space := s.max_size_bytes - s.written
  if space < METADATA_SIZE then (0, s)
  else
    let header0 : Header :=
      { Header.zero with timestamp := now_ms, sequence_number := packet.sequence_number }
    let header_offset := s.write_offset
    let (enqueued, s) :=
      copyIntoBuffer s packet.data (s.element_size * packet.elements) true METADATA_SIZE
    if enqueued = 0 then (0, s)
    else
      let remainder := enqueued % s.element_size
      let enqueued_element_bytes := enqueued - remainder
      let elements := enqueued_element_bytes / s.element_size
      let header := { header0 with elements := elements,
                                   previous_elements := s.latest_written_elements }
      let s := { s with latest_written_elements := header.elements }
      let s := setHeader s (header_offset % s.max_size_bytes) header
      let s := s.forwardWrite (enqueued_element_bytes + METADATA_SIZE)
      (header.elements, { s with written_elements := s.written_elements + header.elements })

/-- Source `JitterBuffer::CopyOutOfBuffer` (lines 413-435) for payload bytes.
Returns the copied bytes together with the count the source returns
(`-1` on a too-small destination is `SIZE_MAX`, modelled as `2^64 - 1`). -/
def copyOutOfBuffer (s : JitterBuffer) (length required_bytes : Nat)
    (strict : Bool) : List Nat × Nat × JitterBuffer :=
  if required_bytes > length then ([], 18446744073709551615, s)
  else
    let currently_written := s.written
    if strict && decide (required_bytes > currently_written) then ([], 0, s)
    else
      let available := min required_bytes currently_written
      if available = 0 then ([], 0, s)
      else
        let out := readBytes s.data s.read_offset available s.max_size_bytes
        (out, available, s.forwardRead available)

/-- The call `CopyOutOfBuffer((std::uint8_t *) &header, METADATA_SIZE, METADATA_SIZE,
true)` (Dequeue, line 179): the same routine with the destination
reinterpreted as a `Header`; returns the header at `read_offset` and forwards
the read cursor past it. -/
def copyHeaderOutOfBuffer (s : JitterBuffer) : Header × Nat × JitterBuffer :=
  let currently_written := s.written
  if METADATA_SIZE > currently_written then (Header.zero, 0, s)
  else (s.headers s.read_offset, METADATA_SIZE, s.forwardRead METADATA_SIZE)

/-- Concealment packet descriptor handed to the callback: the
`sequence_number`, the ring offset of the payload region (`Packet.data` is
`buffer + write_offset` in the source, line 287) and its byte `length`. -/
structure ConcealmentSlot where
  sequence_number : Nat
  offset : Nat
  length : Nat
deriving DecidableEq

/-- The concealment callback: receives the slot descriptors and returns, per
slot, the bytes it writes into the exposed region. -/
def ConcealmentCallback := List ConcealmentSlot → List (List Nat)

/-- The per-slot loop of `JitterBuffer::GenerateConcealment` (lines 269-292),
iterating `countdown` more times (`sequence_offset` counts up from 0 to
`to_conceal`).  Each iteration stages a concealment header at the current
`write_offset` (via the raw `CopyIntoBuffer` with `manual_increment = true`,
so `written` is untouched), advances `write_offset` over header and payload,
and records the slot descriptor.  Returns the descriptors, the final
`previous` chain value, and the state. -/
def generateConcealmentLoop (now_ms last : Nat) :
    Nat → Nat → Nat → List ConcealmentSlot → JitterBuffer →
      List ConcealmentSlot × Nat × JitterBuffer
  | 0, _, previous, acc, s => (acc, previous, s)
  | countdown + 1, sequence_offset, previous, acc, s =>
    let header : Header :=
      { sequence_number := (last + sequence_offset + 1) % UINT32_MOD
        elements := s.packet_elements
        timestamp := now_ms
        concealment := true
        in_use := false
        previous_elements := previous }
    let previous := header.elements
    let s := (copyHeaderIntoBuffer s header true 0).2
    let s := { s with write_offset := (s.write_offset + METADATA_SIZE) % s.max_size_bytes }
    let length := header.elements * s.element_size
    let acc := acc ++ [{ sequence_number := header.sequence_number,
                         offset := s.write_offset, length := length }]
    let s := { s with write_offset := (s.write_offset + length) % s.max_size_bytes }
    generateConcealmentLoop now_ms last countdown (sequence_offset + 1) previous acc s

/-- The callback's in-place writes through the exposed `Packet.data` regions:
slot `i` receives the `i`-th byte list, truncated to the slot's length. -/
def applyConcealmentWrites (s : JitterBuffer) :
    List ConcealmentSlot → List (List Nat) → JitterBuffer
  | [], _ => s
  | _ :: _, [] => s
  | slot :: slots, d :: ds =>
      applyConcealmentWrites
        { s with data := writeBytes s.data slot.offset s.max_size_bytes (d.take slot.length) }
        slots ds

/-- Source `JitterBuffer::GenerateConcealment` (lines 259-303).  Synthesizes
`to_conceal = min(packets, (L - written) / slot_size)` slots, runs the
callback, then commits `written`, `written_elements`,
`last_written_sequence_number` and `latest_written_elements` and returns
`packet_elements * to_conceal`.  The source reads
`last_written_sequence_number.value()`; every caller guarantees the optional
is engaged, and the model uses `getD 0` at that site. -/
def generateConcealment (s : JitterBuffer) (packets : Nat)
    (callback : ConcealmentCallback) (now_ms : Nat) : Nat × JitterBuffer :=
  let space := s.max_size_bytes - s.written
  let packet_size := s.packet_elements * s.element_size + METADATA_SIZE
  let full_packets_fit := space / packet_size
  let to_conceal := min packets full_packets_fit
  let last := s.last_written_sequence_number.getD 0
  let (concealment_packets, previous, s1) :=
    generateConcealmentLoop now_ms last to_conceal 0 s.latest_written_elements [] s
  let s2 := applyConcealmentWrites s1 concealment_packets (callback concealment_packets)
  let s3 :=
    { s2 with
      written := s2.written + to_conceal * (s.packet_elements * s.element_size + METADATA_SIZE)
      written_elements := s2.written_elements + to_conceal * s.packet_elements
      last_written_sequence_number := some (last + to_conceal)
      latest_written_elements := previous }
  (s.packet_elements * to_conceal, s3)

/-- Source `JitterBuffer::Prepare` (lines 74-96). -/
def prepare (s : JitterBuffer) (sequence_number : Nat)
    (concealment_callback : ConcealmentCallback) (now_ms : Nat) : Nat × JitterBuffer :=
  match s.last_written_sequence_number with
  | none => (0, s)
  | some last =>
    if sequence_number ≤ last then (0, s)
    else if sequence_number = last + 1 then (0, s)
    else
      let missing_packets := sequence_number - last - 1
      let (concealed_frames, s) := generateConcealment s missing_packets concealment_callback now_ms
      (concealed_frames,
       { s with metrics :=
           { s.metrics with concealed_frames := s.metrics.concealed_frames + concealed_frames } })

/-- The backward walk of `JitterBuffer::Update` (lines 320-346).  `header` is a
pointer into the ring, so `test_and_set`/`clear` there mutate the stored
header.  Returns the offset of the slot whose header matches the target
sequence number, or `none` on the four bail-out paths.  Note that the
"Unwalkable" path (lines 329-332) returns without clearing the `in_use` flag
it has just set. -/
def updateWalk (s : JitterBuffer)
    (target packet_elements local_write_offset written_at_start : Nat) :
    Option Nat × JitterBuffer :=
  let header := s.headers local_write_offset
  if header.sequence_number = target then (some local_write_offset, s)
  else if header.in_use then (none, s)
  else
    let s := setHeader s local_write_offset { header with in_use := true }
    if header.sequence_number ≤ s.dont_walk_beyond then (none, s)
    else
      let to_move := header.previous_elements * s.element_size + METADATA_SIZE
      if h : to_move > written_at_start then
        (none,
         { setHeader s local_write_offset header with
             metrics := { s.metrics with
               update_missed_frames := s.metrics.update_missed_frames + packet_elements } })
      else
        let s := setHeader s local_write_offset header
        updateWalk s target packet_elements
          (((local_write_offset + to_move * s.max_size_bytes) - to_move) % s.max_size_bytes)
          (written_at_start - to_move)
termination_by written_at_start
decreasing_by
  simp only [gt_iff_lt, not_lt] at h
  have hM : METADATA_SIZE = 40 := rfl
  omega

/-- Source `JitterBuffer::Update` (lines 305-363). -/
def update (s : JitterBuffer) (packet : Packet) : Nat × JitterBuffer :=
  let local_write_offset := s.write_offset
  let written_at_start := s.written
  let this_chunk := s.latest_written_elements * s.element_size + METADATA_SIZE
  if this_chunk > written_at_start then
    (0, { s with metrics := { s.metrics with
            update_missed_frames := s.metrics.update_missed_frames + packet.elements } })
  else
    let written_at_start := written_at_start - this_chunk
    let local_write_offset :=
      ((local_write_offset + this_chunk * s.max_size_bytes) - this_chunk) % s.max_size_bytes
    match updateWalk s packet.sequence_number packet.elements local_write_offset written_at_start with
    | (none, s) => (0, s)
    | (some loc, s) =>
      let header := s.headers loc
      if header.in_use then (0, s)
      else
        let s := setHeader s loc { header with in_use := true }
        let source_offset_frames := packet.elements - header.elements
        let source_bytes :=
          (packet.data.drop (source_offset_frames * s.element_size)).take
            (header.elements * s.element_size)
        let newData :=
          writeBytes s.data ((loc + METADATA_SIZE) % s.max_size_bytes)
            s.max_size_bytes source_bytes
        let s := { s with data := newData }
        let s := setHeader s loc { header with concealment := false, in_use := false }
        (header.elements,
         { s with metrics := { s.metrics with
             updated_frames := s.metrics.updated_frames + header.elements } })

/-- The error message of the element-count check (Enqueue, lines 119-123),
without the two interpolated numbers. -/
def mismatchMessage : String :=
  "Supplied packet elements must match declared number of elements."

/-- The `for` loop of `JitterBuffer::Enqueue` (lines 101-132).  A thrown
`std::invalid_argument` is an `.error` carrying the message and the state the
object retains at the throw; the `break` on a full buffer (lines 125-129)
returns the count accumulated so far.  `packet.sequence_number <=
last_written_sequence_number` compares a value with an `std::optional`: false
when the optional is empty. -/
def enqueueLoop (concealment_callback : ConcealmentCallback) (now_ms : Nat) :
    List Packet → Nat → JitterBuffer → Except (String × JitterBuffer) (Nat × JitterBuffer)
  | [], enqueued, s => .ok (enqueued, s)
  | packet :: rest, enqueued, s =>
    let is_update : Bool :=
      match s.last_written_sequence_number with
      | some last => packet.sequence_number ≤ last
      | none => false
    if is_update then
      let (n, s) := update s packet
      enqueueLoop concealment_callback now_ms rest (enqueued + n) s
    else
      let is_gap : Bool :=
        s.last_written_sequence_number.isSome &&
          (match s.last_written_sequence_number with
           | some last => packet.sequence_number ≠ last
           | none => true)
      let conceal_step : Nat × JitterBuffer :=
        if is_gap then
          let last := s.last_written_sequence_number.getD 0
          let missing := packet.sequence_number - last - 1
          if missing > 0 then
            let (concealed, s) := generateConcealment s missing concealment_callback now_ms
            (enqueued + concealed,
             { s with metrics := { s.metrics with
                 concealed_frames := s.metrics.concealed_frames + concealed } })
          else (enqueued, s)
        else (enqueued, s)
      let enqueued := conceal_step.1
      let s := conceal_step.2
      if packet.elements ≠ s.packet_elements then .error (mismatchMessage, s)
      else
        let (enqueued_elements, s) := copyIntoBufferPacket s packet now_ms
        if enqueued_elements = 0 ∧ packet.elements > 0 then .ok (enqueued, s)
        else
          enqueueLoop concealment_callback now_ms rest (enqueued + enqueued_elements)
            { s with last_written_sequence_number := some packet.sequence_number }

/-- The post-loop section of `JitterBuffer::Enqueue` (lines 134-152): min-fill
top-up while playing, then the play gate.  `std::ceil((float) gap / (float)
each)` on positive integers is exact ceiling division; `min_length * 1.5` is
compared as `2 * depth ≥ 3 * min_length`, exact for the value ranges of
interest. -/
def enqueuePost (s : JitterBuffer) (enqueued : Nat)
    (concealment_callback : ConcealmentCallback) (now_ms : Nat) : Nat × JitterBuffer :=
  let gap_to_min : Int := s.min_length - s.getCurrentDepth
  let (enqueued, s) :=
    if s.play ∧ gap_to_min > 0 then
      let each_packet : Nat := s.packet_elements * 1000 / s.clock_rate
      let to_conceal := (gap_to_min.toNat + each_packet - 1) / each_packet
      let (concealed, s) := generateConcealment s to_conceal concealment_callback now_ms
      (enqueued + concealed,
       { s with metrics := { s.metrics with filled_packets := concealed } })
    else (enqueued, s)
  let s :=
    if ¬ s.play ∧ 2 * s.getCurrentDepth ≥ 3 * s.min_length then
      { s with play := true }
    else s
  (enqueued, s)

/-- Source `JitterBuffer::Enqueue` (lines 98-153).  An exception from the loop
propagates: the post-loop top-up and play gate do not run, and the running
`enqueued` count is lost (the error carries only the message and the retained
state). -/
def enqueue (s : JitterBuffer) (packets : List Packet)
    (concealment_callback : ConcealmentCallback) (now_ms : Nat) :
    Except (String × JitterBuffer) (Nat × JitterBuffer) :=
  match enqueueLoop concealment_callback now_ms packets 0 s with
  | .error e => .error e
  | .ok (enqueued, s) => .ok (enqueuePost s enqueued concealment_callback now_ms)

/-- The `while` loop of `JitterBuffer::Dequeue` (lines 171-250), with explicit
fuel (`none` = fuel exhausted; the source relies on its assertions for
termination).  `.inl` is the early return at line 174 (`written <
METADATA_SIZE`), which returns `dequeued_bytes / element_size` directly and
in particular skips the `written_elements` subtraction at line 255; `.inr` is
the normal loop exit.  The accumulator collects the bytes copied to the
destination. -/
def dequeueLoop (now_ms destination_length required_bytes : Nat) :
    Nat → Nat → Nat → List Nat → JitterBuffer →
      Option ((List Nat × Nat × JitterBuffer) ⊕ (List Nat × Nat × JitterBuffer))
  | 0, _, _, _, _ => none
  | fuel + 1, dequeued_bytes, destination_offset, acc, s =>
    if dequeued_bytes < required_bytes then
      if s.written < METADATA_SIZE then
        some (.inl (acc, dequeued_bytes / s.element_size, s))
      else
        let (header, _copied, s) := copyHeaderOutOfBuffer s
        -- `header.in_use.test_and_set` acts on the local copy just read out of
        -- the ring (line 184): it returns the copied flag and sets the local one.
        let test := header.concealment && header.in_use
        let header := if header.concealment then { header with in_use := true } else header
        if test then
          dequeueLoop now_ms destination_length required_bytes fuel dequeued_bytes
            destination_offset acc (s.forwardRead (header.elements * s.element_size))
        else
          let age := now_ms - header.timestamp
          if age ≥ s.max_length.toNat then
            let s := s.forwardRead (header.elements * s.element_size)
            dequeueLoop now_ms destination_length required_bytes fuel dequeued_bytes
              destination_offset acc
              { s with skipped_frames := s.skipped_frames + header.elements }
          else
            let available_bytes := header.elements * s.element_size
            let available_or_space :=
              min available_bytes (destination_length - destination_offset)
            let remaining_required_bytes := required_bytes - destination_offset
            let to_dequeue := min available_or_space remaining_required_bytes
            let (out, bytes_dequeued, s) :=
              copyOutOfBuffer s (destination_length - destination_offset) to_dequeue true
            let destination_offset := destination_offset + bytes_dequeued
            let s :=
              if bytes_dequeued < available_bytes then
                let s := unwindRead s METADATA_SIZE
                let remaining_bytes := available_bytes - bytes_dequeued
                let header := { header with elements := remaining_bytes / s.element_size }
                -- clear_header and the release of the local copy's flag (lines
                -- 221-224, 244-246) only affect the header value written back.
                let header :=
                  if header.concealment then { header with in_use := false } else header
                let s := setHeader s s.read_offset header
                if s.written ≥ METADATA_SIZE * 2 + header.elements * s.element_size then
                  let next_header_offset :=
                    (s.read_offset + METADATA_SIZE + header.elements * s.element_size)
                      % s.max_size_bytes
                  let next_header := s.headers next_header_offset
                  if next_header.in_use then
                    { s with dont_walk_beyond := next_header.sequence_number }
                  else
                    setHeader s next_header_offset
                      { next_header with previous_elements := header.elements }
                else s
              else s
            dequeueLoop now_ms destination_length required_bytes fuel
              (dequeued_bytes + bytes_dequeued) destination_offset (acc ++ out) s
    else some (.inr (acc, dequeued_bytes, s))

/-- Source `JitterBuffer::Dequeue` (lines 155-257).  Returns the bytes copied to the
destination, the element count, and the state; `.error` is the
`std::invalid_argument` for a too-small destination; the outer `none` is
fuel exhaustion.  Only the normal loop exit performs the `written_elements -=
dequeued_bytes / element_size` of line 255. -/
def dequeue (s : JitterBuffer) (destination_length elements now_ms fuel : Nat) :
    Option (Except String (List Nat × Nat × JitterBuffer)) :=
  if s.play = false then some (.ok ([], 0, s))
  else
    let required_bytes := elements * s.element_size
    if destination_length < required_bytes then
      some (.error "Provided buffer too small.")
    else
      match dequeueLoop now_ms destination_length required_bytes fuel 0 0 [] s with
      | none => none
      | some (.inl (acc, n, s)) => some (.ok (acc, n, s))
      | some (.inr (acc, dequeued_bytes, s)) =>
        let dequeued_elements := dequeued_bytes / s.element_size
        some (.ok (acc, dequeued_elements,
          { s with written_elements := s.written_elements - dequeued_elements }))

end JitterBuffer

open JitterBuffer

/-- Ring length following the spec's words: `L = max_length_ms ·
clock_rate/1000 · (element_size + H)`, **rounded up** to a multiple of the
page size (so a value that is already a page multiple is left unchanged).
Reference definition for comparison with the source's `MakeVirtualMemory`
rounding. -/
def specRingLength (element_size clock_rate : Nat) (max_length : Int) : Nat :=
  let buffer_size :=
    max_length.toNat * (clock_rate / 1000) * (element_size + METADATA_SIZE)
  (buffer_size + PAGE_SIZE - 1) / PAGE_SIZE * PAGE_SIZE

/-- A concealment callback that writes nothing (the engine's state effects on
counters and headers are independent of the bytes the callback fills in). -/
def emptyCallback : ConcealmentCallback := fun _ => []

/-- Concrete audio-style configuration from the spec's end-to-end scenarios:
element_size 4, packet_elements 480, clock 48 kHz, max 100 ms, min 0 ms. -/
def audioState0 : JitterBuffer := freshState 4 480 48000 100 0

/-- One real packet of 480 four-byte elements, sequence number 0. -/
def audioPacket : Packet :=
  { sequence_number := 0, data := List.replicate 1920 7, length := 1920, elements := 480 }

/-- State `audioState0` after enqueueing `audioPacket` at time 0 (the enqueue
succeeds; the `.error` arm is never taken and returns the carried state). -/
def audioState1 : JitterBuffer :=
  match enqueue audioState0 [audioPacket] emptyCallback 0 with
  | .ok (_, s) => s
  | .error (_, s) => s

/-- Near-full configuration used to drive `CopyIntoBuffer` past capacity:
element_size 1, packet_elements 4000, clock 100 kHz, max 1 ms, min 0;
ring length 8192, slot size 4040. -/
def nearFullState0 : JitterBuffer := freshState 1 4000 100000 1 0

def nearFullPacket0 : Packet :=
  { sequence_number := 0, data := List.replicate 4000 1, length := 4000, elements := 4000 }

def nearFullPacket1 : Packet :=
  { sequence_number := 1, data := List.replicate 4000 2, length := 4000, elements := 4000 }

def nearFullPacket2 : Packet :=
  { sequence_number := 2, data := List.replicate 4000 3, length := 4000, elements := 4000 }

/-- State `nearFullState0` after enqueueing packets 0 and 1: `written = 8080` of
8192. -/
def nearFullState1 : JitterBuffer :=
  match enqueue nearFullState0 [nearFullPacket0, nearFullPacket1] emptyCallback 0 with
  | .ok (_, s) => s
  | .error (_, s) => s

/-- State `nearFullState1` after a partial dequeue of 3900 of the 4000 elements of
packet 0: `written = 4180`, so the free space 4012 lies strictly between the
next packet's payload (4000) and its full slot (4040). -/
def nearFullState2 : JitterBuffer :=
  match dequeue nearFullState1 3900 3900 0 3 with
  | some (.ok (_, _, s)) => s
  | _ => nearFullState1

/-- A packet whose slot cannot fit in the freshly constructed ring:
element_size 1, packet_elements 4097, ring length 4096. -/
def oversizedPacket : Packet :=
  { sequence_number := 7, data := List.replicate 4097 9, length := 4097, elements := 4097 }

/-- State on which the Update walk hits the `dont_walk_beyond` watermark:
two concealment slots (sequences 5 and 6) and `dont_walk_beyond = 6` (as a
prior Dequeue partial-read conflict leaves it); the walked-to header at
offset 140 carries sequence 6. -/
def walkStopState : JitterBuffer :=
  { element_size := 1, packet_elements := 100, clock_rate := 48000,
    min_length := 0, max_length := 100, max_size_bytes := 8192,
    data := fun _ => 0,
    headers := fun x =>
      if x = 0 then
        { sequence_number := 5, elements := 100, timestamp := 0,
          concealment := true, in_use := false, previous_elements := 100 }
      else if x = 140 then
        { sequence_number := 6, elements := 100, timestamp := 0,
          concealment := true, in_use := false, previous_elements := 100 }
      else Header.zero,
    read_offset := 0, write_offset := 280, written := 280, written_elements := 200,
    last_written_sequence_number := some 6, play := true,
    latest_written_elements := 100, dont_walk_beyond := 6,
    metrics := Metrics.zero, skipped_frames := 0 }

/-- The late real packet whose Update walk stops at the watermark. -/
def walkStopPacket : Packet :=
  { sequence_number := 4, data := List.replicate 100 5, length := 100, elements := 100 }

/-- Small state for exercising concealment generation: element_size 2,
packet_elements 3 (slot 46), 100 free bytes (fit = 2), last sequence 7. -/
def concealState : JitterBuffer :=
  { element_size := 2, packet_elements := 3, clock_rate := 48000,
    min_length := 0, max_length := 100, max_size_bytes := 100,
    data := fun _ => 0, headers := fun _ => Header.zero,
    read_offset := 0, write_offset := 10, written := 0, written_elements := 0,
    last_written_sequence_number := some 7, play := true,
    latest_written_elements := 3, dont_walk_beyond := 0,
    metrics := Metrics.zero, skipped_frames := 0 }

/-- A packet with the wrong element count (1 instead of 3) and a sequence
number (10) that first forces a gap concealment for sequences 8 and 9. -/
def mismatchPacket : Packet :=
  { sequence_number := 10, data := [1, 2], length := 2, elements := 1 }

/-- The expected buffer state after enqueueing one fitting real packet `p`
of `packet_elements` elements into a freshly constructed buffer with
`min_length = 0`: the payload sits behind the header slot at offset 0, the
play gate has opened, and the occupancy counters hold one whole packet. -/
def roundTripMid (element_size packet_elements clock_rate : Nat)
    (max_length : Int) (p : Packet) (now_ms : Nat) : JitterBuffer :=
  { freshState element_size packet_elements clock_rate max_length 0 with
    data := writeBytes (fun _ => 0)
      (METADATA_SIZE %
        (freshState element_size packet_elements clock_rate max_length 0).max_size_bytes)
      (freshState element_size packet_elements clock_rate max_length 0).max_size_bytes
      p.data
    headers := fun x => if x = 0 then
        { sequence_number := p.sequence_number, elements := packet_elements,
          timestamp := now_ms, concealment := false, in_use := false,
          previous_elements := 0 }
      else Header.zero
    write_offset := (element_size * packet_elements + METADATA_SIZE) %
      (freshState element_size packet_elements clock_rate max_length 0).max_size_bytes
    written := element_size * packet_elements + METADATA_SIZE
    written_elements := packet_elements
    last_written_sequence_number := some p.sequence_number
    play := true
    latest_written_elements := packet_elements }

/-- The buffer state after the round-trip dequeue drains the single slot. -/
def roundTripEnd (element_size packet_elements clock_rate : Nat)
    (max_length : Int) (p : Packet) (now_ms : Nat) : JitterBuffer :=
  { roundTripMid element_size packet_elements clock_rate max_length p now_ms with
    read_offset := (METADATA_SIZE + element_size * packet_elements) %
      (freshState element_size packet_elements clock_rate max_length 0).max_size_bytes
    written := 0
    written_elements := 0 }

/-- The observable outcome of the round-trip scenario: enqueue one real packet
into a fresh `min_length = 0` buffer, then dequeue `packet_elements`
elements; yields (elements enqueued, bytes dequeued, elements dequeued). -/
def roundTripResult (element_size packet_elements clock_rate : Nat)
    (max_length : Int) (p : Packet) (cb : ConcealmentCallback)
    (destination_length now_ms fuel : Nat) : Option (Nat × List Nat × Nat) :=
  match enqueue (freshState element_size packet_elements clock_rate max_length 0)
      [p] cb now_ms with
  | .ok (n1, s1) =>
    match dequeue s1 destination_length packet_elements now_ms fuel with
    | some (.ok (out, n, _)) => some (n1, out, n)
    | _ => none
  | .error _ => none

/-! ### General lemmas about the byte store -/

theorem writeBytes_apply_ne (l : List Nat) (f : Nat → Nat) (off L x : Nat)
    (h : ∀ i < l.length, x ≠ (off + i) % L) : writeBytes f off L l x = f x := by
  induction l generalizing f off with
  | nil => rfl
  | cons b rest ih =>
    rw [writeBytes, ih]
    · have h0 : x ≠ off % L := by simpa using h 0 (by simp)
      simp [h0]
    · intro i hi
      have := h (i + 1) (by simpa using Nat.succ_lt_succ hi)
      simpa [Nat.mod_add_mod, Nat.add_assoc, Nat.add_comm 1 i] using this

theorem readBytes_succ (f : Nat → Nat) (off n L : Nat) :
    readBytes f off (n + 1) L = f (off % L) :: readBytes f (off + 1) n L := by
  simp only [readBytes, List.range_succ_eq_map, List.map_cons, List.map_map,
    Nat.add_zero]
  congr 1
  apply List.map_congr_left
  intro i _
  simp only [Function.comp_apply]
  have hs : off + i.succ = off + 1 + i := by omega
  rw [hs]

theorem readBytes_writeBytes (l : List Nat) (f : Nat → Nat) (off L : Nat)
    (h : off + l.length ≤ L) :
    readBytes (writeBytes f off L l) off l.length L = l := by
  induction l generalizing f off with
  | nil => rfl
  | cons b rest ih =>
    have hoff : off < L := by simp at h; omega
    rw [List.length_cons, writeBytes, readBytes_succ, Nat.mod_eq_of_lt hoff]
    have hhead :
        writeBytes (fun x => if x = off then b else f x) ((off + 1) % L) L rest off = b := by
      rw [writeBytes_apply_ne]
      · simp
      · intro i hi
        have hlt : off + 1 + i < L := by simp at h; omega
        rw [Nat.mod_add_mod, Nat.mod_eq_of_lt hlt]
        omega
    rw [hhead]
    cases rest with
    | nil => rfl
    | cons c cs =>
      have hlt : off + 1 < L := by simp at h; omega
      rw [Nat.mod_eq_of_lt hlt, ih _ _ (by simp only [List.length_cons] at h ⊢; omega)]

/-! ### Claim theorems -/

/-- C8: Construction throws invalid argument iff `max_length ≤ 0` or the
truncating per-packet duration `packet_elements · 1000 / clock_rate` is below
1 ms; both checks precede the buffer allocation, so a rejection yields no
buffer state at all. -/
theorem construction_rejects_iff (element_size packet_elements clock_rate : Nat)
    (max_length min_length : Int) :
    (∃ msg, JitterBuffer.new element_size packet_elements clock_rate max_length min_length
        = .error msg)
      ↔ (max_length ≤ 0 ∨ packet_elements * 1000 / clock_rate < 1) := by
  by_cases h1 : max_length ≤ 0 <;>
    by_cases h2 : packet_elements * 1000 / clock_rate < 1 <;>
      simp [JitterBuffer.new, h1, h2]

/-- C9, counterexample: For `element_size = 88`, `packet_elements = 32`,
`clock_rate = 32000`, `max_length = 1` the pre-rounding product is exactly
4096, one page: the spec formula (rounded up to a page multiple) gives 4096,
but the construction allocates 8192, refuting the claimed equation. -/
theorem ring_length_not_rounded_up_at_page_multiple :
    JitterBuffer.new 88 32 32000 1 0 = .ok (freshState 88 32 32000 1 0) ∧
    (freshState 88 32 32000 1 0).max_size_bytes = 8192 ∧
    specRingLength 88 32000 1 = 4096 ∧ (8192 : Nat) ≠ 4096 :=
  ⟨rfl, by decide, by decide, by decide⟩

/-- C9, amended: For every accepted construction, the ring length is
`B + page_size − B % page_size` with
`B = max_length · (clock_rate / 1000) · (element_size + H)`: the *next
strictly larger* page multiple, which adds a whole page when `B` is already
page-aligned. -/
theorem ring_length_formula (element_size packet_elements clock_rate : Nat)
    (max_length min_length : Int) (s : JitterBuffer)
    (h : JitterBuffer.new element_size packet_elements clock_rate max_length min_length
        = .ok s) :
    s.max_size_bytes =
      max_length.toNat * (clock_rate / 1000) * (element_size + METADATA_SIZE) + PAGE_SIZE
        - max_length.toNat * (clock_rate / 1000) * (element_size + METADATA_SIZE) % PAGE_SIZE := by
  unfold JitterBuffer.new at h
  split at h
  · exact absurd h (by simp)
  · split at h
    · exact absurd h (by simp)
    · cases h
      rfl

theorem ring_length_formula_witness :
    JitterBuffer.new 88 32 32000 1 0 = .ok (freshState 88 32 32000 1 0) ∧
    (freshState 88 32 32000 1 0).max_size_bytes =
      (1 : Int).toNat * (32000 / 1000) * (88 + METADATA_SIZE) + PAGE_SIZE
        - (1 : Int).toNat * (32000 / 1000) * (88 + METADATA_SIZE) % PAGE_SIZE :=
  ⟨rfl, ring_length_formula 88 32 32000 1 0 (freshState 88 32 32000 1 0) rfl⟩

/-- C2: Violated by the code: skipping an expired slot during Dequeue
decrements `written` by the whole slot but never decrements
`written_elements`.  Enqueue one 480-element packet at t = 0 ms into the
audio configuration (min_length 0, so the play gate opens), then Dequeue 480
elements at t = 100 ms: the slot is expired and skipped, the call returns 0,
and the resulting state has `written = 0` but `written_elements = 480`, so
`written_elements · element_size ≤ written` fails after a public call on a
reachable state. -/
theorem dequeue_expiry_violates_occupancy_invariant :
    (match dequeue audioState1 1920 480 100 3 with
     | some (.ok (_, n, s)) =>
         some (n, s.written, s.written_elements,
               decide (s.written_elements * s.element_size ≤ s.written))
     | _ => none) = some (0, 0, 480, false) := by decide

/-- C3: Violated by the code: the mid-loop return at line 174 (fewer than
`METADATA_SIZE` bytes left) bypasses the `written_elements -=
dequeued_bytes / element_size` at line 255.  Dequeue 960 elements when only
480 are buffered: the call returns n = 480 after draining the ring, yet
`written_elements` stays 480 instead of dropping to
`480 − n = 0`. -/
theorem dequeue_early_return_keeps_written_elements :
    audioState1.written_elements = 480 ∧
    (match dequeue audioState1 3840 960 0 3 with
     | some (.ok (_, n, s)) => some (n, s.written, s.written_elements)
     | _ => none) = some (480, 0, 480) := by
  exact ⟨by decide, by decide⟩

/-- C5: Violated by the code: `CopyIntoBuffer` (line 400) checks the
payload length against `L − written` instead of `L − written − H`, and copies
all-or-nothing rather than truncating to `L − written − H` element-wise.
Starting from `nearFullState2` (`written = 4180` of `L = 8192`, free space
4012, payload 4000, slot 4040), enqueueing packet 2 accepts the full payload
and commits `written = 8220 > 8192`, breaching the capacity bound the claim
(and the source's own `assert(written <= max_size_bytes)`) states. -/
theorem enqueue_near_full_overruns_capacity :
    (nearFullState2.written, nearFullState2.max_size_bytes) = (4180, 8192) ∧
    (match enqueue nearFullState2 [nearFullPacket2] emptyCallback 0 with
     | .ok (n, s) => some (n, s.written, s.max_size_bytes,
                           decide (s.written ≤ s.max_size_bytes))
     | .error _ => none) = some (4000, 8220, 8192, false) := by
  exact ⟨by decide, by decide⟩

/-- C1, counterexample: A freshly constructed buffer with min_length = 0
whose ring (4096 bytes) cannot hold a single packet slot (element_size 1,
packet_elements 4097): the construction is accepted, but enqueueing the
packet stores nothing and the subsequent Dequeue of 4097 elements returns 0,
not `packet_elements`, refuting the unconditional round-trip claim. -/
theorem roundTrip_fails_for_oversized_packet :
    JitterBuffer.new 1 4097 1000 1 0 = .ok (freshState 1 4097 1000 1 0) ∧
    (freshState 1 4097 1000 1 0).max_size_bytes = 4096 ∧
    (match enqueue (freshState 1 4097 1000 1 0) [oversizedPacket] emptyCallback 0 with
     | .ok (_, s1) =>
       match dequeue s1 4097 4097 0 3 with
       | some (.ok (_, n, _)) => some n
       | _ => none
     | .error _ => none) = some 0 ∧ (0 : Nat) ≠ 4097 := by
  refine ⟨rfl, by decide, by decide, by decide⟩

/-- C4: Violated by the code: on the "Unwalkable" path (lines 329-332)
`Update` returns 0 but does **not** clear the `in_use` flag it acquired at
line 324, unlike every other bail-out of the walk.  On `walkStopState`
(`dont_walk_beyond = 6`), updating sequence 4 walks back to the header of
sequence 6, sets its flag, hits `6 ≤ dont_walk_beyond` and returns 0 with the
flag still set. -/
theorem update_unwalkable_keeps_in_use_set :
    (update walkStopState walkStopPacket).1 = 0 ∧
    ((update walkStopState walkStopPacket).2.headers 140).sequence_number = 6 ∧
    ((update walkStopState walkStopPacket).2.headers 140).in_use = true := by
  rw [update]
  norm_num [walkStopState, walkStopPacket]
  rw [updateWalk]
  norm_num [walkStopState, Header.zero, setHeader, METADATA_SIZE]

/-! ### Concealment generation: frame lemmas -/

theorem copyHeaderIntoBuffer_manual_eq (s : JitterBuffer) (h : Header) (off : Nat) :
    (copyHeaderIntoBuffer s h true off).2 =
      if METADATA_SIZE > s.max_size_bytes - s.written then s
      else setHeader s ((s.write_offset + off) % s.max_size_bytes) h := by
  by_cases hsp : METADATA_SIZE > s.max_size_bytes - s.written <;>
    simp [copyHeaderIntoBuffer, hsp]

theorem copyHeaderIntoBuffer_manual_written (s : JitterBuffer) (h : Header)
    (off : Nat) : (copyHeaderIntoBuffer s h true off).2.written = s.written := by
  rw [copyHeaderIntoBuffer_manual_eq]
  split <;> rfl

theorem generateConcealmentLoop_element_size (now_ms last : Nat) :
    ∀ (countdown seq_off prev : Nat) (acc : List ConcealmentSlot) (s : JitterBuffer),
      (generateConcealmentLoop now_ms last countdown seq_off prev acc s).2.2.element_size
        = s.element_size := by
  intro countdown
  induction countdown with
  | zero => intro _ _ _ _; rfl
  | succ n ih =>
    intro seq_off prev acc s
    rw [generateConcealmentLoop, ih, copyHeaderIntoBuffer_manual_eq]
    split <;> rfl

theorem generateConcealmentLoop_packet_elements (now_ms last : Nat) :
    ∀ (countdown seq_off prev : Nat) (acc : List ConcealmentSlot) (s : JitterBuffer),
      (generateConcealmentLoop now_ms last countdown seq_off prev acc s).2.2.packet_elements
        = s.packet_elements := by
  intro countdown
  induction countdown with
  | zero => intro _ _ _ _; rfl
  | succ n ih =>
    intro seq_off prev acc s
    rw [generateConcealmentLoop, ih, copyHeaderIntoBuffer_manual_eq]
    split <;> rfl

theorem generateConcealmentLoop_max_size_bytes (now_ms last : Nat) :
    ∀ (countdown seq_off prev : Nat) (acc : List ConcealmentSlot) (s : JitterBuffer),
      (generateConcealmentLoop now_ms last countdown seq_off prev acc s).2.2.max_size_bytes
        = s.max_size_bytes := by
  intro countdown
  induction countdown with
  | zero => intro _ _ _ _; rfl
  | succ n ih =>
    intro seq_off prev acc s
    rw [generateConcealmentLoop, ih, copyHeaderIntoBuffer_manual_eq]
    split <;> rfl

theorem generateConcealmentLoop_written_elements (now_ms last : Nat) :
    ∀ (countdown seq_off prev : Nat) (acc : List ConcealmentSlot) (s : JitterBuffer),
      (generateConcealmentLoop now_ms last countdown seq_off prev acc s).2.2.written_elements
        = s.written_elements := by
  intro countdown
  induction countdown with
  | zero => intro _ _ _ _; rfl
  | succ n ih =>
    intro seq_off prev acc s
    rw [generateConcealmentLoop, ih, copyHeaderIntoBuffer_manual_eq]
    split <;> rfl

theorem applyConcealmentWrites_element_size :
    ∀ (slots : List ConcealmentSlot) (ds : List (List Nat)) (s : JitterBuffer),
      (applyConcealmentWrites s slots ds).element_size = s.element_size := by
  intro slots
  induction slots with
  | nil => intro ds _; cases ds <;> rfl
  | cons slot slots ih =>
    intro ds s
    cases ds with
    | nil => rfl
    | cons d ds => exact ih ds _

theorem applyConcealmentWrites_packet_elements :
    ∀ (slots : List ConcealmentSlot) (ds : List (List Nat)) (s : JitterBuffer),
      (applyConcealmentWrites s slots ds).packet_elements = s.packet_elements := by
  intro slots
  induction slots with
  | nil => intro ds _; cases ds <;> rfl
  | cons slot slots ih =>
    intro ds s
    cases ds with
    | nil => rfl
    | cons d ds => exact ih ds _

theorem applyConcealmentWrites_max_size_bytes :
    ∀ (slots : List ConcealmentSlot) (ds : List (List Nat)) (s : JitterBuffer),
      (applyConcealmentWrites s slots ds).max_size_bytes = s.max_size_bytes := by
  intro slots
  induction slots with
  | nil => intro ds _; cases ds <;> rfl
  | cons slot slots ih =>
    intro ds s
    cases ds with
    | nil => rfl
    | cons d ds => exact ih ds _

theorem applyConcealmentWrites_written_elements :
    ∀ (slots : List ConcealmentSlot) (ds : List (List Nat)) (s : JitterBuffer),
      (applyConcealmentWrites s slots ds).written_elements = s.written_elements := by
  intro slots
  induction slots with
  | nil => intro ds _; cases ds <;> rfl
  | cons slot slots ih =>
    intro ds s
    cases ds with
    | nil => rfl
    | cons d ds => exact ih ds _

theorem applyConcealmentWrites_headers :
    ∀ (slots : List ConcealmentSlot) (ds : List (List Nat)) (s : JitterBuffer),
      (applyConcealmentWrites s slots ds).headers = s.headers := by
  intro slots
  induction slots with
  | nil => intro ds _; cases ds <;> rfl
  | cons slot slots ih =>
    intro ds s
    cases ds with
    | nil => rfl
    | cons d ds => exact ih ds _

theorem generateConcealment_packet_elements (s : JitterBuffer) (packets : Nat)
    (cb : ConcealmentCallback) (now_ms : Nat) :
    (generateConcealment s packets cb now_ms).2.packet_elements = s.packet_elements := by
  unfold generateConcealment
  simp only [applyConcealmentWrites_packet_elements, generateConcealmentLoop_packet_elements]

theorem generateConcealmentLoop_written (now last : Nat) :
    ∀ (countdown seq_off prev : Nat) (acc : List ConcealmentSlot) (s : JitterBuffer),
      (generateConcealmentLoop now last countdown seq_off prev acc s).2.2.written
        = s.written := by
  intro countdown
  induction countdown with
  | zero => intro _ _ _ _; rfl
  | succ n ih =>
    intro seq_off prev acc s
    rw [generateConcealmentLoop, ih]
    exact copyHeaderIntoBuffer_manual_written s _ 0

theorem applyConcealmentWrites_written :
    ∀ (slots : List ConcealmentSlot) (ds : List (List Nat)) (s : JitterBuffer),
      (applyConcealmentWrites s slots ds).written = s.written := by
  intro slots
  induction slots with
  | nil => intro ds _; cases ds <;> rfl
  | cons slot slots ih =>
    intro ds s
    cases ds with
    | nil => rfl
    | cons d ds => exact ih ds _

/-- C10: If a packet reaches the element-count check with a mismatching
count, `Enqueue` throws, but the thrown error leaves behind exactly the state
produced so far: the state `s` reached after the earlier list entries, plus
the gap concealment generated for the failing packet itself (when its
sequence number leaves a gap), with no enqueued count surfaced to the
caller. -/
theorem enqueue_mismatch_retains_prior_effects (s : JitterBuffer) (p : Packet)
    (rest : List Packet) (cb : ConcealmentCallback) (now_ms last : Nat)
    (hlast : s.last_written_sequence_number = some last)
    (hgt : last < p.sequence_number)
    (hmm : p.elements ≠ s.packet_elements) :
    enqueue s (p :: rest) cb now_ms =
      .error (mismatchMessage,
        if p.sequence_number - last - 1 > 0 then
          (let r := generateConcealment s (p.sequence_number - last - 1) cb now_ms
           { r.2 with metrics := { r.2.metrics with
               concealed_frames := r.2.metrics.concealed_frames + r.1 } })
        else s) := by
  have h1 : ¬(p.sequence_number ≤ last) := Nat.not_le.mpr hgt
  have h2 : p.sequence_number ≠ last := Nat.ne_of_gt hgt
  have hloop : enqueueLoop cb now_ms (p :: rest) 0 s =
      .error (mismatchMessage,
        if p.sequence_number - last - 1 > 0 then
          (let r := generateConcealment s (p.sequence_number - last - 1) cb now_ms
           { r.2 with metrics := { r.2.metrics with
               concealed_frames := r.2.metrics.concealed_frames + r.1 } })
        else s) := by
    rw [enqueueLoop]
    simp only [hlast, Option.isSome_some, Option.getD_some, decide_eq_false h1,
      decide_eq_true h2, Bool.false_eq_true, if_false, Bool.true_and, if_true]
    by_cases hmg : p.sequence_number - last - 1 > 0
    · simp only [if_pos hmg, generateConcealment_packet_elements, if_pos hmm]
    · simp only [if_neg hmg, if_pos hmm]
  unfold enqueue
  rw [hloop]

theorem mod_ne_of_lt_of_lt (w d L : Nat) (h0 : 0 < d) (h1 : d < L) :
    w % L ≠ (w + d) % L := by
  intro h
  have hdvd : L ∣ w + d - w := (Nat.modEq_iff_dvd' (Nat.le_add_right w d)).mp h
  rw [Nat.add_sub_cancel_left] at hdvd
  have := Nat.le_of_dvd h0 hdvd
  omega

/-- One unfolding of the staging loop (definitional). -/
theorem generateConcealmentLoop_succ (now_ms last n seq_off prev : Nat)
    (acc : List ConcealmentSlot) (s : JitterBuffer) :
    generateConcealmentLoop now_ms last (n + 1) seq_off prev acc s =
      (let header : Header :=
        { sequence_number := (last + seq_off + 1) % UINT32_MOD
          elements := s.packet_elements
          timestamp := now_ms
          concealment := true
          in_use := false
          previous_elements := prev }
      let s1 := (copyHeaderIntoBuffer s header true 0).2
      let s2 := { s1 with write_offset := (s1.write_offset + METADATA_SIZE) % s1.max_size_bytes }
      let length := header.elements * s2.element_size
      generateConcealmentLoop now_ms last n (seq_off + 1) header.elements
        (acc ++ [{ sequence_number := header.sequence_number, offset := s2.write_offset,
                   length := length }])
        { s2 with write_offset := (s2.write_offset + length) % s2.max_size_bytes }) := rfl

theorem generateConcealmentLoop_write_offset (now_ms last : Nat) :
    ∀ (countdown seq_off prev : Nat) (acc : List ConcealmentSlot) (s : JitterBuffer),
      s.write_offset % s.max_size_bytes = s.write_offset →
      countdown * (s.packet_elements * s.element_size + METADATA_SIZE)
          ≤ s.max_size_bytes - s.written →
      (generateConcealmentLoop now_ms last countdown seq_off prev acc s).2.2.write_offset
        = (s.write_offset +
            countdown * (s.packet_elements * s.element_size + METADATA_SIZE))
            % s.max_size_bytes := by
  intro countdown
  induction countdown with
  | zero =>
    intro seq_off prev acc s hw _
    rw [Nat.zero_mul, Nat.add_zero, hw]
    rfl
  | succ n ih =>
    intro seq_off prev acc s hw hspace
    have hsp : ¬(METADATA_SIZE > s.max_size_bytes - s.written) := by
      have h1 : 1 * (s.packet_elements * s.element_size + METADATA_SIZE)
          ≤ (n + 1) * (s.packet_elements * s.element_size + METADATA_SIZE) :=
        Nat.mul_le_mul_right _ (by omega)
      rw [Nat.one_mul] at h1
      have := le_trans h1 hspace
      omega
    simp only [generateConcealmentLoop_succ, copyHeaderIntoBuffer_manual_eq, if_neg hsp,
      Nat.add_zero, hw]
    refine Eq.trans (ih _ _ _ _ ?_ ?_) ?_
    · simp [setHeader, Nat.mod_mod_of_dvd]
    · simp only [setHeader]
      exact le_trans (Nat.mul_le_mul_right _ (Nat.le_succ n)) hspace
    · simp only [setHeader, Nat.mod_add_mod]
      congr 1
      ring

theorem generateConcealmentLoop_previous (now_ms last : Nat) :
    ∀ (countdown seq_off prev : Nat) (acc : List ConcealmentSlot) (s : JitterBuffer),
      countdown * (s.packet_elements * s.element_size + METADATA_SIZE)
          ≤ s.max_size_bytes - s.written →
      (generateConcealmentLoop now_ms last countdown seq_off prev acc s).2.1
        = if countdown = 0 then prev else s.packet_elements := by
  intro countdown
  induction countdown with
  | zero => intro seq_off prev acc s _; rfl
  | succ n ih =>
    intro seq_off prev acc s hspace
    have hsp : ¬(METADATA_SIZE > s.max_size_bytes - s.written) := by
      have h1 : 1 * (s.packet_elements * s.element_size + METADATA_SIZE)
          ≤ (n + 1) * (s.packet_elements * s.element_size + METADATA_SIZE) :=
        Nat.mul_le_mul_right _ (by omega)
      rw [Nat.one_mul] at h1
      have := le_trans h1 hspace
      omega
    simp only [generateConcealmentLoop_succ, copyHeaderIntoBuffer_manual_eq, if_neg hsp,
      Nat.add_zero]
    refine Eq.trans (ih _ _ _ _ ?_) ?_
    · simp only [setHeader]
      exact le_trans (Nat.mul_le_mul_right _ (Nat.le_succ n)) hspace
    · simp only [setHeader, ite_self]
      rw [if_neg (Nat.succ_ne_zero n)]

theorem generateConcealmentLoop_headers_outside (now_ms last : Nat) :
    ∀ (countdown seq_off prev : Nat) (acc : List ConcealmentSlot) (s : JitterBuffer),
      s.write_offset % s.max_size_bytes = s.write_offset →
      countdown * (s.packet_elements * s.element_size + METADATA_SIZE)
          ≤ s.max_size_bytes - s.written →
      ∀ x, (∀ j, j < countdown →
          x ≠ (s.write_offset + j * (s.packet_elements * s.element_size + METADATA_SIZE))
                % s.max_size_bytes) →
        (generateConcealmentLoop now_ms last countdown seq_off prev acc s).2.2.headers x
          = s.headers x := by
  intro countdown
  induction countdown with
  | zero => intro seq_off prev acc s _ _ x _; rfl
  | succ n ih =>
    intro seq_off prev acc s hw hspace x hx
    have hsp : ¬(METADATA_SIZE > s.max_size_bytes - s.written) := by
      have h1 : 1 * (s.packet_elements * s.element_size + METADATA_SIZE)
          ≤ (n + 1) * (s.packet_elements * s.element_size + METADATA_SIZE) :=
        Nat.mul_le_mul_right _ (by omega)
      rw [Nat.one_mul] at h1
      have := le_trans h1 hspace
      omega
    have h0 := hx 0 (by omega)
    rw [Nat.zero_mul, Nat.add_zero, hw] at h0
    simp only [generateConcealmentLoop_succ, copyHeaderIntoBuffer_manual_eq, if_neg hsp,
      Nat.add_zero, hw]
    refine Eq.trans (ih _ _ _ _ ?_ ?_ x ?_) ?_
    · simp [setHeader, Nat.mod_mod_of_dvd]
    · simp only [setHeader]
      exact le_trans (Nat.mul_le_mul_right _ (Nat.le_succ n)) hspace
    · intro j hj
      have hgoal := hx (j + 1) (by omega)
      simp only [setHeader, Nat.mod_add_mod]
      have harith : s.write_offset + METADATA_SIZE + s.packet_elements * s.element_size
            + j * (s.packet_elements * s.element_size + METADATA_SIZE)
          = s.write_offset
            + (j + 1) * (s.packet_elements * s.element_size + METADATA_SIZE) := by ring
      rw [harith]
      exact hgoal
    · simp only [setHeader]
      simp [h0]

theorem generateConcealmentLoop_headers_at (now_ms last : Nat) :
    ∀ (countdown seq_off prev : Nat) (acc : List ConcealmentSlot) (s : JitterBuffer),
      s.write_offset % s.max_size_bytes = s.write_offset →
      countdown * (s.packet_elements * s.element_size + METADATA_SIZE)
          ≤ s.max_size_bytes - s.written →
      ∀ j, j < countdown →
        (generateConcealmentLoop now_ms last countdown seq_off prev acc s).2.2.headers
            ((s.write_offset + j * (s.packet_elements * s.element_size + METADATA_SIZE))
              % s.max_size_bytes) =
          { sequence_number := (last + seq_off + j + 1) % UINT32_MOD,
            elements := s.packet_elements, timestamp := now_ms, concealment := true,
            in_use := false,
            previous_elements := if j = 0 then prev else s.packet_elements } := by
  intro countdown
  induction countdown with
  | zero => intro seq_off prev acc s _ _ j hj; exact absurd hj (by omega)
  | succ n ih =>
    intro seq_off prev acc s hw hspace j hj
    have hMpos : (0:Nat) < METADATA_SIZE := by decide
    have hslotpos : 0 < s.packet_elements * s.element_size + METADATA_SIZE := by omega
    have hsp : ¬(METADATA_SIZE > s.max_size_bytes - s.written) := by
      have h1 : 1 * (s.packet_elements * s.element_size + METADATA_SIZE)
          ≤ (n + 1) * (s.packet_elements * s.element_size + METADATA_SIZE) :=
        Nat.mul_le_mul_right _ (by omega)
      rw [Nat.one_mul] at h1
      have := le_trans h1 hspace
      omega
    have hLbig : ∀ d, 0 < d →
        d ≤ n * (s.packet_elements * s.element_size + METADATA_SIZE) →
        d < s.max_size_bytes := by
      intro d hd0 hdle
      have h2 : n * (s.packet_elements * s.element_size + METADATA_SIZE)
          < (n + 1) * (s.packet_elements * s.element_size + METADATA_SIZE) :=
        (Nat.mul_lt_mul_right hslotpos).mpr (Nat.lt_succ_self n)
      have h3 : (n + 1) * (s.packet_elements * s.element_size + METADATA_SIZE)
          ≤ s.max_size_bytes := le_trans hspace (Nat.sub_le _ _)
      omega
    simp only [generateConcealmentLoop_succ, copyHeaderIntoBuffer_manual_eq, if_neg hsp,
      Nat.add_zero, hw]
    cases j with
    | zero =>
      simp only [Nat.zero_mul, Nat.add_zero, hw]
      refine Eq.trans (generateConcealmentLoop_headers_outside now_ms last n _ _ _ _
        ?_ ?_ s.write_offset ?_) ?_
      · simp [setHeader, Nat.mod_mod_of_dvd]
      · simp only [setHeader]
        exact le_trans (Nat.mul_le_mul_right _ (Nat.le_succ n)) hspace
      · intro j' hj'
        simp only [setHeader, Nat.mod_add_mod]
        have harith : s.write_offset + METADATA_SIZE + s.packet_elements * s.element_size
              + j' * (s.packet_elements * s.element_size + METADATA_SIZE)
            = s.write_offset
              + (j' + 1) * (s.packet_elements * s.element_size + METADATA_SIZE) := by ring
        rw [harith]
        have hne := mod_ne_of_lt_of_lt s.write_offset
          ((j' + 1) * (s.packet_elements * s.element_size + METADATA_SIZE))
          s.max_size_bytes (by positivity)
          (hLbig _ (by positivity) (Nat.mul_le_mul_right _ (by omega)))
        rw [hw] at hne
        exact hne
      · simp [setHeader]
    | succ j' =>
      have hoffeq : (s.write_offset
            + (j' + 1) * (s.packet_elements * s.element_size + METADATA_SIZE))
              % s.max_size_bytes
          = (((s.write_offset + METADATA_SIZE) % s.max_size_bytes
              + s.packet_elements * s.element_size) % s.max_size_bytes
              + j' * (s.packet_elements * s.element_size + METADATA_SIZE))
              % s.max_size_bytes := by
        rw [Nat.mod_add_mod, Nat.add_assoc, Nat.mod_add_mod]
        congr 1
        ring
      rw [hoffeq]
      refine Eq.trans (ih (seq_off + 1) _ _ _ ?_ ?_ j' (by omega)) ?_
      · simp [setHeader, Nat.mod_mod_of_dvd]
      · simp only [setHeader]
        exact le_trans (Nat.mul_le_mul_right _ (Nat.le_succ n)) hspace
      · have hseq : last + (seq_off + 1) + j' + 1 = last + seq_off + (j' + 1) + 1 := by
          omega
        simp only [setHeader, hseq, ite_self, Nat.succ_ne_zero, if_false]


/-- C6: For every state whose ring bookkeeping is sane
(`written ≤ L`, in-range `write_offset`, engaged
`last_written_sequence_number = last`, and no 32-bit sequence rollover),
`GenerateConcealment(requested)` synthesizes
`k = min(requested, (L − written) / (H + packet_elements·element_size))`
slots with consecutive sequence numbers `last+1 … last+k`, each with
`elements = packet_elements` and `concealment = true`, returns
`k · packet_elements`, and on return `last_written_sequence_number = last + k`,
`written` has grown by `k` slots and `written_elements` by
`k · packet_elements`. -/
theorem generateConcealment_spec (s : JitterBuffer) (packets : Nat)
    (cb : ConcealmentCallback) (now_ms last : Nat)
    (hlast : s.last_written_sequence_number = some last)
    (hwr : s.written ≤ s.max_size_bytes)
    (hwo : s.write_offset % s.max_size_bytes = s.write_offset)
    (hroll : last + min packets ((s.max_size_bytes - s.written) /
        (s.packet_elements * s.element_size + METADATA_SIZE)) < UINT32_MOD) :
    (generateConcealment s packets cb now_ms).1 =
      min packets ((s.max_size_bytes - s.written) /
          (s.packet_elements * s.element_size + METADATA_SIZE)) * s.packet_elements ∧
    (generateConcealment s packets cb now_ms).2.written =
      s.written + min packets ((s.max_size_bytes - s.written) /
          (s.packet_elements * s.element_size + METADATA_SIZE)) *
        (s.packet_elements * s.element_size + METADATA_SIZE) ∧
    (generateConcealment s packets cb now_ms).2.written_elements =
      s.written_elements + min packets ((s.max_size_bytes - s.written) /
          (s.packet_elements * s.element_size + METADATA_SIZE)) * s.packet_elements ∧
    (generateConcealment s packets cb now_ms).2.last_written_sequence_number =
      some (last + min packets ((s.max_size_bytes - s.written) /
          (s.packet_elements * s.element_size + METADATA_SIZE))) ∧
    (∀ j, j < min packets ((s.max_size_bytes - s.written) /
          (s.packet_elements * s.element_size + METADATA_SIZE)) →
      (generateConcealment s packets cb now_ms).2.headers
          ((s.write_offset + j * (s.packet_elements * s.element_size + METADATA_SIZE))
            % s.max_size_bytes) =
        { sequence_number := last + j + 1, elements := s.packet_elements,
          timestamp := now_ms, concealment := true, in_use := false,
          previous_elements :=
            if j = 0 then s.latest_written_elements else s.packet_elements }) := by
  have hspace : min packets ((s.max_size_bytes - s.written) /
        (s.packet_elements * s.element_size + METADATA_SIZE)) *
      (s.packet_elements * s.element_size + METADATA_SIZE)
      ≤ s.max_size_bytes - s.written :=
    le_trans (Nat.mul_le_mul_right _ (min_le_right _ _)) (Nat.div_mul_le_self _ _)
  rcases hE : generateConcealmentLoop now_ms last
      (min packets ((s.max_size_bytes - s.written) /
        (s.packet_elements * s.element_size + METADATA_SIZE)))
      0 s.latest_written_elements [] s with ⟨cp, prevv, s1⟩
  have hwritten := generateConcealmentLoop_written now_ms last
    (min packets ((s.max_size_bytes - s.written) /
      (s.packet_elements * s.element_size + METADATA_SIZE)))
    0 s.latest_written_elements [] s
  have hwe := generateConcealmentLoop_written_elements now_ms last
    (min packets ((s.max_size_bytes - s.written) /
      (s.packet_elements * s.element_size + METADATA_SIZE)))
    0 s.latest_written_elements [] s
  have hhd := generateConcealmentLoop_headers_at now_ms last
    (min packets ((s.max_size_bytes - s.written) /
      (s.packet_elements * s.element_size + METADATA_SIZE)))
    0 s.latest_written_elements [] s hwo hspace
  rw [hE] at hwritten hwe hhd
  have hw1 : s1.written = s.written := hwritten
  have hwe1 : s1.written_elements = s.written_elements := hwe
  unfold generateConcealment
  rw [hlast]
  simp only [Option.getD_some, hE]
  refine ⟨?_, ?_, ?_, ?_, ?_⟩
  · exact Nat.mul_comm _ _
  · rw [applyConcealmentWrites_written, hw1]
  · rw [applyConcealmentWrites_written_elements, hwe1]
  · trivial
  · intro j hj
    have hj1 : last + j + 1 < UINT32_MOD := by omega
    have hh : s1.headers
        ((s.write_offset + j * (s.packet_elements * s.element_size + METADATA_SIZE))
          % s.max_size_bytes) =
        { sequence_number := (last + 0 + j + 1) % UINT32_MOD,
          elements := s.packet_elements, timestamp := now_ms, concealment := true,
          in_use := false,
          previous_elements :=
            if j = 0 then s.latest_written_elements else s.packet_elements } := hhd j hj
    rw [applyConcealmentWrites_headers, hh]
    rw [show last + 0 + j + 1 = last + j + 1 from by omega, Nat.mod_eq_of_lt hj1]

theorem generateConcealment_spec_witness :
    concealState.last_written_sequence_number = some 7 ∧
    concealState.written ≤ concealState.max_size_bytes ∧
    concealState.write_offset % concealState.max_size_bytes = concealState.write_offset ∧
    7 + min 5 ((concealState.max_size_bytes - concealState.written) /
        (concealState.packet_elements * concealState.element_size + METADATA_SIZE))
      < UINT32_MOD ∧
    (generateConcealment concealState 5 emptyCallback 99).1 =
      min 5 ((concealState.max_size_bytes - concealState.written) /
          (concealState.packet_elements * concealState.element_size + METADATA_SIZE))
        * concealState.packet_elements :=
  ⟨rfl, by decide, by decide, by decide,
   (generateConcealment_spec concealState 5 emptyCallback 99 7 rfl (by decide)
     (by decide) (by decide)).1⟩

/-- C7: The value `written` is not modified at any point between entry to
`GenerateConcealment` and the return of the concealment callback: the header
staging loop preserves `written` (it uses the manual-increment copy), the
callback's in-place payload writes preserve `written`, and the full
occupancy commit of `to_conceal` slots happens only in the final step, after
the callback has returned. -/
theorem generateConcealment_defers_written_commit :
    (∀ (now_ms last countdown seq_off prev : Nat) (acc : List ConcealmentSlot)
        (s : JitterBuffer),
      (generateConcealmentLoop now_ms last countdown seq_off prev acc s).2.2.written
        = s.written) ∧
    (∀ (s : JitterBuffer) (slots : List ConcealmentSlot) (ds : List (List Nat)),
      (applyConcealmentWrites s slots ds).written = s.written) ∧
    (∀ (s : JitterBuffer) (packets : Nat) (cb : ConcealmentCallback) (now_ms : Nat),
      (generateConcealment s packets cb now_ms).2.written =
        s.written +
          min packets ((s.max_size_bytes - s.written) /
              (s.packet_elements * s.element_size + METADATA_SIZE)) *
            (s.packet_elements * s.element_size + METADATA_SIZE)) := by
  refine ⟨fun now_ms last c o p a s => generateConcealmentLoop_written now_ms last c o p a s,
          fun s slots ds => applyConcealmentWrites_written slots ds s, ?_⟩
  intro s packets cb now_ms
  unfold generateConcealment
  simp only [applyConcealmentWrites_written, generateConcealmentLoop_written]

/-- Enqueueing a single fitting real packet into a fresh `min_length = 0`
buffer succeeds, stores one slot at offset 0 and opens the play gate. -/
theorem enqueue_single_packet_fresh (element_size packet_elements clock_rate : Nat)
    (max_length : Int) (p : Packet) (cb : ConcealmentCallback) (now_ms : Nat)
    (hes : 0 < element_size) (hpe : 0 < packet_elements)
    (hfit : METADATA_SIZE + element_size * packet_elements
        ≤ (freshState element_size packet_elements clock_rate max_length 0).max_size_bytes)
    (helems : p.elements = packet_elements)
    (hdata : p.data.length = element_size * packet_elements) :
    enqueue (freshState element_size packet_elements clock_rate max_length 0) [p] cb now_ms
      = .ok (0 + packet_elements,
             roundTripMid element_size packet_elements clock_rate max_length p now_ms) := by
  set S0 := freshState element_size packet_elements clock_rate max_length 0 with hS0
  have hlast0 : S0.last_written_sequence_number = none := rfl
  have hmm : ¬(p.elements ≠ S0.packet_elements) := by
    simp [helems, hS0, freshState]
  have hsp : ¬(S0.max_size_bytes - S0.written < METADATA_SIZE) := by
    have hwr0 : S0.written = 0 := rfl
    omega
  have hlen : ¬(S0.element_size * p.elements > S0.max_size_bytes - S0.written) := by
    have hes0 : S0.element_size = element_size := rfl
    have hwr0 : S0.written = 0 := rfl
    rw [hes0, hwr0, helems]
    omega
  have hnz : ¬(S0.element_size * p.elements = 0) := by
    have hes0 : S0.element_size = element_size := rfl
    rw [hes0, helems]
    have := Nat.mul_pos hes hpe
    omega
  have hes0 : S0.element_size = element_size := rfl
  have hwr0 : S0.written = 0 := rfl
  have hwo0 : S0.write_offset = 0 := rfl
  have hwe0 : S0.written_elements = 0 := rfl
  have e2 : element_size * packet_elements % element_size = 0 := Nat.mul_mod_right _ _
  have e3 : element_size * packet_elements / element_size = packet_elements :=
    Nat.mul_div_cancel_left _ hes
  have hloop : enqueueLoop cb now_ms [p] 0 S0 =
      .ok (0 + packet_elements,
        { roundTripMid element_size packet_elements clock_rate max_length p now_ms with
            play := false }) := by
    rw [enqueueLoop]
    simp only [hlast0, Option.isSome_none, Bool.false_and, Bool.false_eq_true, if_false]
    rw [if_neg hmm]
    unfold copyIntoBufferPacket copyIntoBuffer
    rw [if_neg hsp, if_neg hlen]
    simp only [if_neg hnz, if_true]
    simp only [hes0, helems]
    simp only [e2, Nat.sub_zero, e3]
    rw [if_neg (show ¬(packet_elements = 0 ∧ packet_elements > 0) from by omega)]
    rw [enqueueLoop]
    simp only [setHeader, JitterBuffer.forwardWrite, hwr0, hwo0, hwe0, Nat.zero_add,
      Nat.zero_mod]
    have htake : List.take (element_size * packet_elements) p.data = p.data := by
      rw [← hdata]
      exact List.take_length _
    rw [htake]
    rfl
  unfold enqueue
  rw [hloop]
  unfold enqueuePost
  simp only [Bool.false_eq_true, false_and, if_false]
  split
  · rfl
  · next h =>
    exfalso
    apply h
    refine ⟨by simp, ?_⟩
    simp only [roundTripMid, freshState, JitterBuffer.getCurrentDepth, mul_zero,
      ge_iff_le]
    positivity

/-- Dequeueing `packet_elements` elements right after the single-packet
enqueue returns the packet's bytes and count. -/
theorem dequeue_after_single_packet (element_size packet_elements clock_rate : Nat)
    (max_length : Int) (p : Packet) (destination_length now_ms f : Nat)
    (hmax : 0 < max_length) (hes : 0 < element_size) (hpe : 0 < packet_elements)
    (hfit : METADATA_SIZE + element_size * packet_elements
        ≤ (freshState element_size packet_elements clock_rate max_length 0).max_size_bytes)
    (hdata : p.data.length = element_size * packet_elements)
    (hdl : element_size * packet_elements ≤ destination_length) :
    dequeue (roundTripMid element_size packet_elements clock_rate max_length p now_ms)
        destination_length packet_elements now_ms (f + 2)
      = some (.ok (p.data, packet_elements,
          roundTripEnd element_size packet_elements clock_rate max_length p now_ms)) := by
  set MID := roundTripMid element_size packet_elements clock_rate max_length p now_ms
    with hMID
  have hplay : MID.play = true := rfl
  have hes0 : MID.element_size = element_size := rfl
  have hwr : MID.written = element_size * packet_elements + METADATA_SIZE := rfl
  have hro : MID.read_offset = 0 := rfl
  have hml : MID.max_length = max_length := rfl
  have hcomm : packet_elements * element_size = element_size * packet_elements :=
    Nat.mul_comm _ _
  have hpos : 0 < element_size * packet_elements := Nat.mul_pos hes hpe
  unfold dequeue
  simp only [hplay, hes0, hcomm, Bool.true_eq_false, if_false]
  rw [if_neg (show ¬(destination_length < element_size * packet_elements) from by omega)]
  rw [show f + 2 = f + 1 + 1 from rfl, dequeueLoop]
  rw [if_pos (show 0 < element_size * packet_elements from hpos)]
  rw [if_neg (show ¬(MID.written < METADATA_SIZE) from by rw [hwr]; omega)]
  unfold copyHeaderOutOfBuffer
  rw [if_neg (show ¬(METADATA_SIZE > MID.written) from by rw [hwr]; omega)]
  simp only [hro]
  have hh0 : MID.headers 0 =
      { sequence_number := p.sequence_number, elements := packet_elements,
        timestamp := now_ms, concealment := false, in_use := false,
        previous_elements := 0 } := rfl
  simp only [hh0, Bool.false_and, Bool.false_eq_true, if_false, Nat.sub_self,
    JitterBuffer.forwardRead, hes0, hml, hwr, hcomm, Nat.sub_zero, Nat.add_sub_cancel]
  rw [if_neg (show ¬(0 ≥ max_length.toNat) from by omega)]
  rw [Nat.min_eq_left hdl, Nat.min_self]
  unfold copyOutOfBuffer
  rw [if_neg (show ¬(element_size * packet_elements > destination_length) from by omega)]
  simp only [decide_eq_false (show ¬(element_size * packet_elements
    > element_size * packet_elements) from by omega), Bool.and_false,
    Bool.false_eq_true, if_false, Nat.min_self]
  rw [if_neg (show ¬(element_size * packet_elements = 0) from by omega)]
  have hfitM : METADATA_SIZE + element_size * packet_elements ≤ MID.max_size_bytes := hfit
  have hread : readBytes MID.data ((MID.read_offset + METADATA_SIZE) % MID.max_size_bytes)
      (element_size * packet_elements) MID.max_size_bytes = p.data := by
    rw [hro, Nat.zero_add, ← hdata]
    have hd : MID.data = writeBytes (fun _ => 0)
        (METADATA_SIZE % MID.max_size_bytes) MID.max_size_bytes p.data := rfl
    rw [hd]
    apply readBytes_writeBytes
    have h1 : METADATA_SIZE % MID.max_size_bytes ≤ METADATA_SIZE := Nat.mod_le _ _
    rw [hdata]
    omega
  simp only [hread]
  rw [dequeueLoop]
  rw [if_neg (show ¬(0 + element_size * packet_elements
    < element_size * packet_elements) from by omega)]
  rw [if_neg (show ¬(element_size * packet_elements
    < element_size * packet_elements) from by omega)]
  simp only [List.nil_append, Nat.zero_add, JitterBuffer.forwardRead, hes0]
  have hdiv : element_size * packet_elements / element_size = packet_elements :=
    Nat.mul_div_cancel_left _ hes
  simp only [hdiv, Nat.sub_self, hro, Nat.mod_add_mod]
  have hweM : MID.written_elements = packet_elements := rfl
  simp only [hweM, Nat.zero_add, Nat.sub_self]
  rfl

/-- C1, amended: The round-trip law holds once the packet actually fits:
for every accepted construction with `min_length = 0`, `element_size ≥ 1`,
and `H + packet_elements·element_size ≤ L`, enqueueing a single real packet
`P` of exactly `packet_elements` elements and then dequeueing
`packet_elements` elements (same wall-clock instant, destination capacity at
least the requested bytes) returns `packet_elements` and the destination
bytes equal `P.data`. -/
theorem roundTrip_single_packet_fits (element_size packet_elements clock_rate : Nat)
    (max_length : Int) (p : Packet) (cb : ConcealmentCallback)
    (destination_length now_ms fuel : Nat)
    (hmax : 0 < max_length)
    (hdur : 1 ≤ packet_elements * 1000 / clock_rate)
    (hes : 0 < element_size)
    (hfit : METADATA_SIZE + element_size * packet_elements
        ≤ (freshState element_size packet_elements clock_rate max_length 0).max_size_bytes)
    (helems : p.elements = packet_elements)
    (hdata : p.data.length = element_size * packet_elements)
    (hdl : element_size * packet_elements ≤ destination_length)
    (hfuel : 2 ≤ fuel) :
    JitterBuffer.new element_size packet_elements clock_rate max_length 0
      = .ok (freshState element_size packet_elements clock_rate max_length 0) ∧
    roundTripResult element_size packet_elements clock_rate max_length p cb
        destination_length now_ms fuel
      = some (packet_elements, p.data, packet_elements) := by
  have hpe : 0 < packet_elements := by
    rcases Nat.eq_zero_or_pos packet_elements with h | h
    · rw [h] at hdur
      simp at hdur
    · exact h
  constructor
  · unfold JitterBuffer.new
    rw [if_neg (by omega), if_neg (by omega)]
  obtain ⟨f, rfl⟩ : ∃ f, fuel = f + 2 := ⟨fuel - 2, by omega⟩
  unfold roundTripResult
  simp only [enqueue_single_packet_fresh element_size packet_elements clock_rate
      max_length p cb now_ms hes hpe hfit helems hdata,
    dequeue_after_single_packet element_size packet_elements clock_rate max_length
      p destination_length now_ms f hmax hes hpe hfit hdata hdl,
    Nat.zero_add]

set_option maxRecDepth 100000 in
theorem roundTrip_single_packet_fits_witness :
    (0 : Int) < 100 ∧ 1 ≤ 480 * 1000 / 48000 ∧ (0 : Nat) < 4 ∧
    METADATA_SIZE + 4 * 480 ≤ (freshState 4 480 48000 100 0).max_size_bytes ∧
    audioPacket.elements = 480 ∧ audioPacket.data.length = 4 * 480 ∧
    4 * 480 ≤ (1920 : Nat) ∧ (2 : Nat) ≤ 2 ∧
    roundTripResult 4 480 48000 100 audioPacket emptyCallback 1920 0 2
      = some (480, audioPacket.data, 480) :=
  ⟨by decide, by decide, by decide, by decide, rfl, by simp [audioPacket], by decide,
   by decide,
   (roundTrip_single_packet_fits 4 480 48000 100 audioPacket emptyCallback 1920 0 2
     (by decide) (by decide) (by decide) (by decide) rfl (by simp [audioPacket])
     (by decide) (by decide)).2⟩

theorem enqueue_mismatch_retains_prior_effects_witness :
    concealState.last_written_sequence_number = some 7 ∧
    7 < mismatchPacket.sequence_number ∧
    mismatchPacket.elements ≠ concealState.packet_elements ∧
    enqueue concealState [mismatchPacket] emptyCallback 99 =
      .error (mismatchMessage,
        if mismatchPacket.sequence_number - 7 - 1 > 0 then
          (let r := generateConcealment concealState
            (mismatchPacket.sequence_number - 7 - 1) emptyCallback 99
           { r.2 with metrics := { r.2.metrics with
               concealed_frames := r.2.metrics.concealed_frames + r.1 } })
        else concealState) :=
  ⟨rfl, by decide, by decide,
   enqueue_mismatch_retains_prior_effects concealState mismatchPacket [] emptyCallback
     99 7 rfl (by decide) (by decide)⟩
